import Mathlib

/-
Verification of the contract introspection and classification engine of the
monadmcp-server repository. The definitions below are a shallow embedding of
the two relevant tool handlers (the get-contract-source handler and the
get-erc20-balance handler). Network collaborators (the viem public client and
the Monadscan registry fetch) are modelled as an environment record holding
the value each collaborator call would produce, with a failing call modelled
as none. Every handler additionally returns the ordered trace of collaborator
invocations, so that claims about which collaborators are reached can be
stated directly.
-/

namespace MonadMcp

/-- Hex digit test matching the character class of the viem address regex
[0-9a-fA-F]. -/
def isHexDigitChar (c : Char) : Bool :=
  (c ≥ '0' && c ≤ '9') || (c ≥ 'a' && c ≤ 'f') || (c ≥ 'A' && c ≤ 'F')

/-- ASCII lowercase mapping, the effect of the JavaScript toLowerCase call on
the characters an address string may hold. -/
def toLowerAscii (c : Char) : Char :=
  if c ≥ 'A' && c ≤ 'Z' then Char.ofNat (c.toNat + 32) else c

/-- Syntactic shape of an address: the regex test of viem isAddress, namely
a 0x prefix followed by exactly 40 hex digits. -/
def isAddressFormat (s : String) : Bool :=
  s.toList.length == 42 && s.toList.take 2 == ['0', 'x'] &&
    (s.toList.drop 2).all isHexDigitChar

/-- viem isAddress: the regex test, then the lowercase shortcut, otherwise the
keccak-based mixed-case checksum comparison. The checksum computation itself
lives outside the repository, so it is passed in as a function argument. -/
def isAddress (checksum : String → String) (s : String) : Bool :=
  isAddressFormat s &&
    (s.toList.map toLowerAscii == s.toList || checksum s == s)

/-- One record of the Monadscan getsourcecode response (the interface
MonadscanSourceCode in the handler). An absent SourceCode field is modelled as
the empty string, which is what the falsy test in the handler checks for. -/
structure MonadscanSourceCode where
  SourceCode : String
  ContractName : String
  CompilerVersion : String
  OptimizationUsed : String
  Runs : Option String
deriving DecidableEq, Repr

/-- The Monadscan HTTP response as seen by the handler: the HTTP-level ok
flag of the fetch response, plus the parsed JSON body (interface
MonadscanResponse: a status string and a result list). -/
structure MonadscanResponse where
  ok : Bool
  status : String
  result : List MonadscanSourceCode
deriving DecidableEq, Repr

/-- The token metadata stored in contractInfo.tokenInfo: either the four
fields extracted by the ERC20 probe or the two fields extracted by the ERC721
probe. -/
inductive TokenInfo where
  | erc20 (name symbol : String) (decimals : Nat) (totalSupply : Nat)
  | erc721 (name symbol : String)
deriving DecidableEq, Repr

/-- The ContractInfo record built in step 2 of the get-contract-source
handler. The balance and totalSupply are kept as raw integers rather than
their formatted string rendering. -/
structure ContractInfo where
  exists_ : Bool
  isContract : Bool
  balance : Nat
  bytecodeSize : Nat
  isERC20 : Bool
  isERC721 : Bool
  tokenInfo : Option TokenInfo
  transactionCount : Nat
deriving DecidableEq, Repr

/-- The initial value of contractInfo in the handler. -/
def initialContractInfo : ContractInfo :=
  { exists_ := false
    isContract := false
    balance := 0
    bytecodeSize := 0
    isERC20 := false
    isERC721 := false
    tokenInfo := none
    transactionCount := 0 }

/-- One collaborator invocation. registryFetch is the single Monadscan HTTP
request; the others are viem public-client calls, with the readContract calls
named by the contract function they invoke. -/
inductive Call where
  | registryFetch
  | getBytecode
  | getBalance
  | readName
  | readSymbol
  | readDecimals
  | readTotalSupply
  | readSupportsInterface
deriving DecidableEq, Repr

/-- The environment of one get-contract-source request: what each
collaborator call would return. none models a failing call (revert, missing
selector, network error, timeout); for the registry it models a transport
failure of the fetch itself. bytecode none models the undefined returned by
getBytecode for an address without code. -/
structure Env where
  registry : Option MonadscanResponse
  bytecode : Option String
  balance : Nat
  nameR : Option String
  symbolR : Option String
  decimalsR : Option Nat
  totalSupplyR : Option Nat
  supportsR : Option Bool
deriving DecidableEq, Repr

/-- Step 1 of the get-contract-source handler: the value of sourceCodeData
after the registry fetch. Mirrors: on transport failure the inner catch
leaves it null; a non-ok HTTP response is skipped; on status "1" the handler
reads data.result[0].SourceCode, where an empty result list makes the member
access throw (caught by the same inner catch) and a falsy SourceCode leaves
sourceCodeData null. -/
def fetchSourceCodeData (reg : Option MonadscanResponse) :
    Option MonadscanSourceCode :=
  match reg with
  | none => none
  | some r =>
    if r.ok then
      if r.status = "1" then
        match r.result.head? with
        | none => none
        | some first => if first.SourceCode = "" then none else some first
      else none
    else none

/-- The ERC20 probe of the handler: Promise.all over name, symbol, decimals
and totalSupply with no per-call catch, wrapped in a try block, so the probe
yields token info exactly when all four calls succeed. -/
def probeERC20 (env : Env) : Option TokenInfo :=
  match env.nameR, env.symbolR, env.decimalsR, env.totalSupplyR with
  | some n, some s, some d, some t => some (TokenInfo.erc20 n s d t)
  | _, _, _, _ => none

/-- Step 2 of the handler: the on-chain analysis. Reads the bytecode once;
a truthy bytecode different from "0x" takes the contract branch (balance,
ERC20 probe, then the ERC721 probe only when the ERC20 probe failed), and
otherwise the EOA branch only reads the balance. The second component is the
trace of collaborator invocations, in order; the calls inside a Promise.all
are all issued even when one of them fails. -/
def analyzeOnChain (env : Env) : ContractInfo × List Call :=
  match env.bytecode with
  | some code =>
    if code ≠ "" ∧ code ≠ "0x" then
      match probeERC20 env with
      | some info =>
        ({ initialContractInfo with
            exists_ := true
            isContract := true
            balance := env.balance
            bytecodeSize := (code.length - 2) / 2
            isERC20 := true
            tokenInfo := some info },
         [Call.getBytecode, Call.getBalance, Call.readName, Call.readSymbol,
          Call.readDecimals, Call.readTotalSupply])
      | none =>
        match env.supportsR with
        | some true =>
          ({ initialContractInfo with
              exists_ := true
              isContract := true
              balance := env.balance
              bytecodeSize := (code.length - 2) / 2
              isERC721 := true
              tokenInfo := some (TokenInfo.erc721
                ((env.nameR).getD "Unknown") ((env.symbolR).getD "UNKNOWN")) },
           [Call.getBytecode, Call.getBalance, Call.readName, Call.readSymbol,
            Call.readDecimals, Call.readTotalSupply,
            Call.readSupportsInterface, Call.readName, Call.readSymbol])
        | some false =>
          ({ initialContractInfo with
              exists_ := true
              isContract := true
              balance := env.balance
              bytecodeSize := (code.length - 2) / 2 },
           [Call.getBytecode, Call.getBalance, Call.readName, Call.readSymbol,
            Call.readDecimals, Call.readTotalSupply,
            Call.readSupportsInterface])
        | none =>
          ({ initialContractInfo with
              exists_ := true
              isContract := true
              balance := env.balance
              bytecodeSize := (code.length - 2) / 2 },
           [Call.getBytecode, Call.getBalance, Call.readName, Call.readSymbol,
            Call.readDecimals, Call.readTotalSupply,
            Call.readSupportsInterface])
    else
      ({ initialContractInfo with balance := env.balance },
       [Call.getBytecode, Call.getBalance])
  | none =>
    ({ initialContractInfo with balance := env.balance },
     [Call.getBytecode, Call.getBalance])

/-- The classification section of the final response text: the ERC-20 section
when isERC20 is set and tokenInfo is present, else the ERC-721 section when
isERC721 is set and tokenInfo is present, else the unknown-type section. -/
inductive Classification where
  | erc20Token (name symbol : String) (decimals : Nat) (totalSupply : Nat)
  | erc721Token (name symbol : String)
  | unknownContract
  | noClassification
deriving DecidableEq, Repr

/-- Renders a TokenInfo value into the classification section exactly as the
response text reads its fields. -/
def tokenInfoClassification (info : TokenInfo) : Classification :=
  match info with
  | TokenInfo.erc20 n s d t => Classification.erc20Token n s d t
  | TokenInfo.erc721 n s => Classification.erc721Token n s

/-- The structured content of the step 3 response text. -/
structure Report where
  isContract : Bool
  balance : Nat
  bytecodeSize : Nat
  classification : Classification
  verification : Option MonadscanSourceCode
deriving DecidableEq, Repr

/-- Step 3 of the handler: the response built from contractInfo and
sourceCodeData. The EOA branch of the response mentions neither a
classification nor the verification data. -/
def buildReport (ci : ContractInfo) (src : Option MonadscanSourceCode) :
    Report :=
  if !ci.isContract then
    { isContract := false
      balance := ci.balance
      bytecodeSize := ci.bytecodeSize
      classification := Classification.noClassification
      verification := none }
  else
    { isContract := true
      balance := ci.balance
      bytecodeSize := ci.bytecodeSize
      classification :=
        if ci.isERC20 && ci.tokenInfo.isSome then
          match ci.tokenInfo with
          | some info => tokenInfoClassification info
          | none => Classification.unknownContract
        else if ci.isERC721 && ci.tokenInfo.isSome then
          match ci.tokenInfo with
          | some info => tokenInfoClassification info
          | none => Classification.unknownContract
        else Classification.unknownContract
      verification := src }

/-- The get-contract-source handler: validate the address (the thrown error
is caught by the surrounding try and rendered as a failure message), then
step 1 (registry fetch), step 2 (on-chain analysis) and step 3 (response
assembly). The second component is the full collaborator trace. -/
def getContractSource (checksum : String → String) (env : Env)
    (contractAddress : String) : Except String Report × List Call :=
  if isAddress checksum contractAddress then
    let src := fetchSourceCodeData env.registry
    let onChain := analyzeOnChain env
    (Except.ok (buildReport onChain.1 src), Call.registryFetch :: onChain.2)
  else
    (Except.error "Invalid contract address format", [])

/-- The environment of one get-erc20-balance request. -/
structure Erc20BalanceEnv where
  balanceOfR : Option Nat
  nameR : Option String
  symbolR : Option String
  decimalsR : Option Nat
deriving DecidableEq, Repr

/-- The structured content of the get-erc20-balance response text. -/
structure Erc20BalanceResult where
  name : String
  symbol : String
  decimals : Nat
  balance : Nat
deriving DecidableEq, Repr

/-- The get-erc20-balance handler: validate both addresses, then Promise.all
over balanceOf (no catch: its failure fails the whole request), and name,
symbol and decimals each with a catch producing the documented default. -/
def getErc20Balance (checksum : String → String) (env : Erc20BalanceEnv)
    (address tokenAddress : String) : Except String Erc20BalanceResult :=
  if isAddress checksum address && isAddress checksum tokenAddress then
    match env.balanceOfR with
    | none => Except.error "Failed to retrieve token balance"
    | some b =>
      Except.ok
        { name := (env.nameR).getD "Unknown"
          symbol := (env.symbolR).getD "UNKNOWN"
          decimals := (env.decimalsR).getD 18
          balance := b }
  else
    Except.error "Invalid address format"

/-- The ERC20 probe fails as soon as one of the four required calls fails. -/
lemma probeERC20_eq_none (env : Env)
    (h : env.nameR = none ∨ env.symbolR = none ∨ env.decimalsR = none ∨
      env.totalSupplyR = none) :
    probeERC20 env = none := by
  rcases h with h | h | h | h <;>
    cases hn : env.nameR <;> cases hs : env.symbolR <;>
      cases hd : env.decimalsR <;> cases ht : env.totalSupplyR <;>
        simp_all [probeERC20]

/-- Every degraded registry outcome leaves sourceCodeData null: transport
failure, non-ok HTTP status, non-success API status, empty result list, or an
empty SourceCode field in the first record. -/
lemma fetchSourceCodeData_eq_none (reg : Option MonadscanResponse)
    (h : reg = none ∨ ∃ r, reg = some r ∧
      (r.ok = false ∨ r.status ≠ "1" ∨ r.result = [] ∨
        ∃ first rest, r.result = first :: rest ∧ first.SourceCode = "")) :
    fetchSourceCodeData reg = none := by
  rcases h with rfl | ⟨r, rfl, hcase⟩
  · rfl
  · rcases hcase with h | h | h | ⟨first, rest, hres, hsc⟩
    · simp [fetchSourceCodeData, h]
    · simp [fetchSourceCodeData, h]
    · simp [fetchSourceCodeData, h]
    · simp [fetchSourceCodeData, hres, hsc]

/-- Running the handler on a valid address whose deployed code is empty or
absent: the EOA branch. -/
lemma run_eoa (checksum : String → String) (env : Env) (addr : String)
    (hvalid : isAddress checksum addr = true)
    (hcode : env.bytecode = none ∨ env.bytecode = some "0x") :
    getContractSource checksum env addr =
      (Except.ok
        { isContract := false
          balance := env.balance
          bytecodeSize := 0
          classification := Classification.noClassification
          verification := none },
       [Call.registryFetch, Call.getBytecode, Call.getBalance]) := by
  rcases hcode with h | h <;>
    simp [getContractSource, hvalid, analyzeOnChain, h, buildReport,
      initialContractInfo]

/-- Running the handler on a valid contract address where all four ERC20
required calls succeed. -/
lemma run_erc20 (checksum : String → String) (env : Env) (addr : String)
    (hvalid : isAddress checksum addr = true) (code : String)
    (hb : env.bytecode = some code) (h0 : code ≠ "") (h1 : code ≠ "0x")
    (n s : String) (d t : Nat)
    (hn : env.nameR = some n) (hs : env.symbolR = some s)
    (hd : env.decimalsR = some d) (ht : env.totalSupplyR = some t) :
    getContractSource checksum env addr =
      (Except.ok
        { isContract := true
          balance := env.balance
          bytecodeSize := (code.length - 2) / 2
          classification := Classification.erc20Token n s d t
          verification := fetchSourceCodeData env.registry },
       [Call.registryFetch, Call.getBytecode, Call.getBalance, Call.readName,
        Call.readSymbol, Call.readDecimals, Call.readTotalSupply]) := by
  simp [getContractSource, hvalid, analyzeOnChain, hb, h0, h1, probeERC20,
    hn, hs, hd, ht, buildReport, initialContractInfo, tokenInfoClassification]

/-- Running the handler on a valid contract address where the ERC20 probe
fails and supportsInterface(0x80ac58cd) returns true. -/
lemma run_erc721 (checksum : String → String) (env : Env) (addr : String)
    (hvalid : isAddress checksum addr = true) (code : String)
    (hb : env.bytecode = some code) (h0 : code ≠ "") (h1 : code ≠ "0x")
    (h20 : probeERC20 env = none)
    (hsup : env.supportsR = some true) :
    getContractSource checksum env addr =
      (Except.ok
        { isContract := true
          balance := env.balance
          bytecodeSize := (code.length - 2) / 2
          classification := Classification.erc721Token
            ((env.nameR).getD "Unknown") ((env.symbolR).getD "UNKNOWN")
          verification := fetchSourceCodeData env.registry },
       [Call.registryFetch, Call.getBytecode, Call.getBalance, Call.readName,
        Call.readSymbol, Call.readDecimals, Call.readTotalSupply,
        Call.readSupportsInterface, Call.readName, Call.readSymbol]) := by
  simp [getContractSource, hvalid, analyzeOnChain, hb, h0, h1, h20, hsup,
    buildReport, initialContractInfo, tokenInfoClassification]

/-- Running the handler on a valid contract address where the ERC20 probe
fails and the supportsInterface call fails or returns false. -/
lemma run_unknown (checksum : String → String) (env : Env) (addr : String)
    (hvalid : isAddress checksum addr = true) (code : String)
    (hb : env.bytecode = some code) (h0 : code ≠ "") (h1 : code ≠ "0x")
    (h20 : probeERC20 env = none)
    (hsup : env.supportsR = none ∨ env.supportsR = some false) :
    getContractSource checksum env addr =
      (Except.ok
        { isContract := true
          balance := env.balance
          bytecodeSize := (code.length - 2) / 2
          classification := Classification.unknownContract
          verification := fetchSourceCodeData env.registry },
       [Call.registryFetch, Call.getBytecode, Call.getBalance, Call.readName,
        Call.readSymbol, Call.readDecimals, Call.readTotalSupply,
        Call.readSupportsInterface]) := by
  rcases hsup with h | h <;>
    simp [getContractSource, hvalid, analyzeOnChain, hb, h0, h1, h20, h,
      buildReport, initialContractInfo]

/-- C1: for every analyzed address whose deployed code is empty or absent,
the report has kind ExternallyOwned (isContract = false) and no
classification, and the classifier is never invoked during that request: the
collaborator trace holds only the registry fetch, the bytecode read and the
balance read, never a readContract probe. -/
theorem c1_eoa_skips_classifier (checksum : String → String) (env : Env)
    (addr : String) (hvalid : isAddress checksum addr = true)
    (hcode : env.bytecode = none ∨ env.bytecode = some "0x") :
    (getContractSource checksum env addr).1 =
      Except.ok
        { isContract := false
          balance := env.balance
          bytecodeSize := 0
          classification := Classification.noClassification
          verification := none } ∧
    ∀ c ∈ (getContractSource checksum env addr).2,
      c = Call.registryFetch ∨ c = Call.getBytecode ∨ c = Call.getBalance := by
  rw [run_eoa checksum env addr hvalid hcode]
  exact ⟨rfl, by simp⟩

/-- C1 witness at a concrete lowercase valid address with absent code. -/
theorem c1_eoa_skips_classifier_witness :
    (getContractSource id
        { registry := none, bytecode := none, balance := 7, nameR := none,
          symbolR := none, decimalsR := none, totalSupplyR := none,
          supportsR := none }
        "0x0000000000000000000000000000000000000000").1 =
      Except.ok
        { isContract := false
          balance := 7
          bytecodeSize := 0
          classification := Classification.noClassification
          verification := none } ∧
    ∀ c ∈ (getContractSource id
        { registry := none, bytecode := none, balance := 7, nameR := none,
          symbolR := none, decimalsR := none, totalSupplyR := none,
          supportsR := none }
        "0x0000000000000000000000000000000000000000").2,
      c = Call.registryFetch ∨ c = Call.getBytecode ∨ c = Call.getBalance :=
  c1_eoa_skips_classifier id _ _ (by decide) (Or.inl rfl)

/-- C2: a contract satisfying both the fungible and the non-fungible
required sets is classified as the fungible candidate only, and the
non-fungible probe (the supportsInterface call) is never attempted. The
handler is a pure function of its environment, so the outcome is
deterministic and reproducible. -/
theorem c2_fungible_candidate_wins (checksum : String → String) (env : Env)
    (addr : String) (hvalid : isAddress checksum addr = true) (code : String)
    (hb : env.bytecode = some code) (h0 : code ≠ "") (h1 : code ≠ "0x")
    (n s : String) (d t : Nat)
    (hn : env.nameR = some n) (hs : env.symbolR = some s)
    (hd : env.decimalsR = some d) (ht : env.totalSupplyR = some t)
    (hboth : env.supportsR = some true) :
    (getContractSource checksum env addr).1 =
      Except.ok
        { isContract := true
          balance := env.balance
          bytecodeSize := (code.length - 2) / 2
          classification := Classification.erc20Token n s d t
          verification := fetchSourceCodeData env.registry } ∧
    Call.readSupportsInterface ∉ (getContractSource checksum env addr).2 := by
  rw [run_erc20 checksum env addr hvalid code hb h0 h1 n s d t hn hs hd ht]
  exact ⟨rfl, by simp⟩

/-- C2 witness: a contract whose environment satisfies all four ERC20 reads
and would also answer true to supportsInterface. -/
theorem c2_fungible_candidate_wins_witness :
    (getContractSource id
        { registry := none, bytecode := some "0x6001", balance := 3,
          nameR := some "Token", symbolR := some "TOK",
          decimalsR := some 18, totalSupplyR := some 1000,
          supportsR := some true }
        "0x0000000000000000000000000000000000000000").1 =
      Except.ok
        { isContract := true
          balance := 3
          bytecodeSize := 2
          classification := Classification.erc20Token "Token" "TOK" 18 1000
          verification := none } ∧
    Call.readSupportsInterface ∉ (getContractSource id
        { registry := none, bytecode := some "0x6001", balance := 3,
          nameR := some "Token", symbolR := some "TOK",
          decimalsR := some 18, totalSupplyR := some 1000,
          supportsR := some true }
        "0x0000000000000000000000000000000000000000").2 :=
  c2_fungible_candidate_wins id _ _ (by decide) "0x6001" rfl (by decide)
    (by decide) "Token" "TOK" 18 1000 rfl rfl rfl rfl rfl

/-- C3: for every syntactically invalid address string the handler fails
with the invalid-address error and the collaborator trace is empty: neither
the chain reader nor the verification registry is ever invoked. -/
theorem c3_invalid_address_no_io (checksum : String → String) (env : Env)
    (addr : String) (hinvalid : isAddress checksum addr = false) :
    getContractSource checksum env addr =
      (Except.error "Invalid contract address format", []) := by
  simp [getContractSource, hinvalid]

/-- C3 witness at a concrete address of the wrong length. -/
theorem c3_invalid_address_no_io_witness :
    getContractSource id
      { registry := none, bytecode := some "0x6001", balance := 3,
        nameR := some "Token", symbolR := some "TOK",
        decimalsR := some 18, totalSupplyR := some 1000,
        supportsR := some true }
      "0x1234" =
      (Except.error "Invalid contract address format", []) :=
  c3_invalid_address_no_io id _ _ (by decide)

/-- C4: when some required call of the fungible probe fails and the
non-fungible probe is not satisfied either, no exception escapes: the request
completes with an ok report whose classification is the unknown-contract
section and carries no extracted fields, and all probe calls were still
issued (the failing call does not prevent the others from being invoked). -/
theorem c4_probe_failures_recovered (checksum : String → String) (env : Env)
    (addr : String) (hvalid : isAddress checksum addr = true) (code : String)
    (hb : env.bytecode = some code) (h0 : code ≠ "") (h1 : code ≠ "0x")
    (h20 : env.nameR = none ∨ env.symbolR = none ∨ env.decimalsR = none ∨
      env.totalSupplyR = none)
    (h721 : env.supportsR = none ∨ env.supportsR = some false) :
    (getContractSource checksum env addr).1 =
      Except.ok
        { isContract := true
          balance := env.balance
          bytecodeSize := (code.length - 2) / 2
          classification := Classification.unknownContract
          verification := fetchSourceCodeData env.registry } ∧
    Call.readName ∈ (getContractSource checksum env addr).2 ∧
    Call.readSymbol ∈ (getContractSource checksum env addr).2 ∧
    Call.readDecimals ∈ (getContractSource checksum env addr).2 ∧
    Call.readTotalSupply ∈ (getContractSource checksum env addr).2 ∧
    Call.readSupportsInterface ∈ (getContractSource checksum env addr).2 := by
  rw [run_unknown checksum env addr hvalid code hb h0 h1
    (probeERC20_eq_none env h20) h721]
  exact ⟨rfl, by simp, by simp, by simp, by simp, by simp⟩

/-- C4 witness: the decimals read fails and the supportsInterface read also
fails; the request still completes with the unknown-contract report. -/
theorem c4_probe_failures_recovered_witness :
    (getContractSource id
        { registry := none, bytecode := some "0x6001", balance := 3,
          nameR := some "Token", symbolR := some "TOK",
          decimalsR := none, totalSupplyR := some 1000,
          supportsR := none }
        "0x0000000000000000000000000000000000000000").1 =
      Except.ok
        { isContract := true
          balance := 3
          bytecodeSize := 2
          classification := Classification.unknownContract
          verification := none } ∧
    Call.readName ∈ (getContractSource id
        { registry := none, bytecode := some "0x6001", balance := 3,
          nameR := some "Token", symbolR := some "TOK",
          decimalsR := none, totalSupplyR := some 1000,
          supportsR := none }
        "0x0000000000000000000000000000000000000000").2 ∧
    Call.readSymbol ∈ (getContractSource id
        { registry := none, bytecode := some "0x6001", balance := 3,
          nameR := some "Token", symbolR := some "TOK",
          decimalsR := none, totalSupplyR := some 1000,
          supportsR := none }
        "0x0000000000000000000000000000000000000000").2 ∧
    Call.readDecimals ∈ (getContractSource id
        { registry := none, bytecode := some "0x6001", balance := 3,
          nameR := some "Token", symbolR := some "TOK",
          decimalsR := none, totalSupplyR := some 1000,
          supportsR := none }
        "0x0000000000000000000000000000000000000000").2 ∧
    Call.readTotalSupply ∈ (getContractSource id
        { registry := none, bytecode := some "0x6001", balance := 3,
          nameR := some "Token", symbolR := some "TOK",
          decimalsR := none, totalSupplyR := some 1000,
          supportsR := none }
        "0x0000000000000000000000000000000000000000").2 ∧
    Call.readSupportsInterface ∈ (getContractSource id
        { registry := none, bytecode := some "0x6001", balance := 3,
          nameR := some "Token", symbolR := some "TOK",
          decimalsR := none, totalSupplyR := some 1000,
          supportsR := none }
        "0x0000000000000000000000000000000000000000").2 :=
  c4_probe_failures_recovered id _ _ (by decide) "0x6001" rfl (by decide)
    (by decide) (Or.inr (Or.inr (Or.inl rfl))) (Or.inl rfl)

/-- C5: every degraded registry outcome (transport failure, non-ok HTTP
status, non-success API status, empty result list, empty SourceCode field)
resolves sourceCodeData to none rather than an error, and the request still
returns an ok report built from the complete on-chain analysis, with the
verification field reported as none. -/
theorem c5_registry_failure_degrades (checksum : String → String) (env : Env)
    (addr : String) (hvalid : isAddress checksum addr = true)
    (hreg : env.registry = none ∨ ∃ r, env.registry = some r ∧
      (r.ok = false ∨ r.status ≠ "1" ∨ r.result = [] ∨
        ∃ first rest, r.result = first :: rest ∧ first.SourceCode = "")) :
    fetchSourceCodeData env.registry = none ∧
    (getContractSource checksum env addr).1 =
      Except.ok (buildReport (analyzeOnChain env).1 none) ∧
    (buildReport (analyzeOnChain env).1 none).verification = none := by
  have hnone := fetchSourceCodeData_eq_none env.registry hreg
  refine ⟨hnone, ?_, ?_⟩
  · simp [getContractSource, hvalid, hnone]
  · by_cases h : (analyzeOnChain env).1.isContract <;> simp [buildReport, h]

/-- C5 witness: the registry answers with HTTP ok, a success status and an
empty result list; the report is still produced with verification none. -/
theorem c5_registry_failure_degrades_witness :
    fetchSourceCodeData (Env.registry
      { registry := some { ok := true, status := "1", result := [] },
        bytecode := some "0x6001", balance := 3,
        nameR := some "Token", symbolR := some "TOK",
        decimalsR := some 18, totalSupplyR := some 1000,
        supportsR := none }) = none ∧
    (getContractSource id
        { registry := some { ok := true, status := "1", result := [] },
          bytecode := some "0x6001", balance := 3,
          nameR := some "Token", symbolR := some "TOK",
          decimalsR := some 18, totalSupplyR := some 1000,
          supportsR := none }
        "0x0000000000000000000000000000000000000000").1 =
      Except.ok (buildReport (analyzeOnChain
        { registry := some { ok := true, status := "1", result := [] },
          bytecode := some "0x6001", balance := 3,
          nameR := some "Token", symbolR := some "TOK",
          decimalsR := some 18, totalSupplyR := some 1000,
          supportsR := none }).1 none) ∧
    (buildReport (analyzeOnChain
        { registry := some { ok := true, status := "1", result := [] },
          bytecode := some "0x6001", balance := 3,
          nameR := some "Token", symbolR := some "TOK",
          decimalsR := some 18, totalSupplyR := some 1000,
          supportsR := none }).1 none).verification = none :=
  c5_registry_failure_degrades id _ _ (by decide)
    (Or.inr ⟨_, rfl, Or.inr (Or.inr (Or.inl rfl))⟩)

/-- The four possible shapes of the on-chain trace: the EOA branch, the
satisfied ERC20 probe, the failed ERC20 probe with a failed or false
supportsInterface call, and the failed ERC20 probe with a true
supportsInterface answer. -/
lemma analyzeOnChain_trace (env : Env) :
    (analyzeOnChain env).2 = [Call.getBytecode, Call.getBalance] ∨
    (analyzeOnChain env).2 = [Call.getBytecode, Call.getBalance,
      Call.readName, Call.readSymbol, Call.readDecimals,
      Call.readTotalSupply] ∨
    (analyzeOnChain env).2 = [Call.getBytecode, Call.getBalance,
      Call.readName, Call.readSymbol, Call.readDecimals, Call.readTotalSupply,
      Call.readSupportsInterface] ∨
    (analyzeOnChain env).2 = [Call.getBytecode, Call.getBalance,
      Call.readName, Call.readSymbol, Call.readDecimals, Call.readTotalSupply,
      Call.readSupportsInterface, Call.readName, Call.readSymbol] := by
  cases hb : env.bytecode with
  | none => left; simp [analyzeOnChain, hb]
  | some code =>
    by_cases hc : code ≠ "" ∧ code ≠ "0x"
    · cases hp : probeERC20 env with
      | some info =>
        right; left
        simp [analyzeOnChain, hb, hc.1, hc.2, hp]
      | none =>
        cases hs : env.supportsR with
        | none =>
          right; right; left
          simp [analyzeOnChain, hb, hc.1, hc.2, hp, hs]
        | some b =>
          cases b
          · right; right; left
            simp [analyzeOnChain, hb, hc.1, hc.2, hp, hs]
          · right; right; right
            simp [analyzeOnChain, hb, hc.1, hc.2, hp, hs]
    · left
      simp [analyzeOnChain, hb, hc]

/-- The full collaborator trace of any valid-address request starts with the
registry fetch, then the bytecode read, then the balance read. -/
lemma trace_starts_registry_then_bytecode (checksum : String → String)
    (env : Env) (addr : String) (hvalid : isAddress checksum addr = true) :
    ∃ rest, (getContractSource checksum env addr).2 =
      Call.registryFetch :: Call.getBytecode :: Call.getBalance :: rest := by
  have e : (getContractSource checksum env addr).2 =
      Call.registryFetch :: (analyzeOnChain env).2 := by
    simp [getContractSource, hvalid]
  rcases analyzeOnChain_trace env with h | h | h | h <;>
    exact ⟨_, by rw [e, h]⟩

/-- However the analysis branches, the bytecode is read exactly once. -/
lemma count_getBytecode (checksum : String → String) (env : Env)
    (addr : String) (hvalid : isAddress checksum addr = true) :
    ((getContractSource checksum env addr).2).count Call.getBytecode = 1 := by
  have e : (getContractSource checksum env addr).2 =
      Call.registryFetch :: (analyzeOnChain env).2 := by
    simp [getContractSource, hvalid]
  rcases analyzeOnChain_trace env with h | h | h | h <;> rw [e, h] <;> decide

/-- On the contract branch the request always completes with an ok report
carrying the balance, the byte length of the code and the verification data,
whatever the probes answered. -/
lemma run_contract_shape (checksum : String → String) (env : Env)
    (addr : String) (hvalid : isAddress checksum addr = true) (code : String)
    (hb : env.bytecode = some code) (h0 : code ≠ "") (h1 : code ≠ "0x") :
    ∃ cls, (getContractSource checksum env addr).1 =
      Except.ok
        { isContract := true
          balance := env.balance
          bytecodeSize := (code.length - 2) / 2
          classification := cls
          verification := fetchSourceCodeData env.registry } := by
  cases hp : probeERC20 env with
  | some info =>
    exact ⟨tokenInfoClassification info, by
      simp [getContractSource, hvalid, analyzeOnChain, hb, h0, h1, hp,
        buildReport, initialContractInfo]⟩
  | none =>
    cases hs : env.supportsR with
    | none =>
      exact ⟨Classification.unknownContract, by
        simp [getContractSource, hvalid, analyzeOnChain, hb, h0, h1, hp, hs,
          buildReport, initialContractInfo]⟩
    | some b =>
      cases b
      · exact ⟨Classification.unknownContract, by
          simp [getContractSource, hvalid, analyzeOnChain, hb, h0, h1, hp, hs,
            buildReport, initialContractInfo]⟩
      · exact ⟨Classification.erc721Token
            ((env.nameR).getD "Unknown") ((env.symbolR).getD "UNKNOWN"), by
          simp [getContractSource, hvalid, analyzeOnChain, hb, h0, h1, hp, hs,
            buildReport, initialContractInfo, tokenInfoClassification]⟩

/-- C6: metadata functions that are read on a best-effort basis degrade to
the documented defaults and never fail the candidate. In the
get-erc20-balance handler a satisfied balanceOf read yields a result whose
name, symbol and decimals fall back to the placeholder "Unknown", the
placeholder "UNKNOWN" and 18 when unresolved; in the get-contract-source
handler a satisfied supportsInterface probe yields the non-fungible
classification whose name and symbol fall back to the same placeholders. -/
theorem c6_metadata_defaults (checksum : String → String)
    (benv : Erc20BalanceEnv) (a ta : String)
    (hva : isAddress checksum a = true) (hvt : isAddress checksum ta = true)
    (b : Nat) (hbal : benv.balanceOfR = some b)
    (env : Env) (addr : String) (hvalid : isAddress checksum addr = true)
    (code : String) (hb : env.bytecode = some code) (h0 : code ≠ "")
    (h1 : code ≠ "0x") (h20 : probeERC20 env = none)
    (hsup : env.supportsR = some true) :
    getErc20Balance checksum benv a ta =
      Except.ok
        { name := (benv.nameR).getD "Unknown"
          symbol := (benv.symbolR).getD "UNKNOWN"
          decimals := (benv.decimalsR).getD 18
          balance := b } ∧
    (getContractSource checksum env addr).1 =
      Except.ok
        { isContract := true
          balance := env.balance
          bytecodeSize := (code.length - 2) / 2
          classification := Classification.erc721Token
            ((env.nameR).getD "Unknown") ((env.symbolR).getD "UNKNOWN")
          verification := fetchSourceCodeData env.registry } := by
  constructor
  · simp [getErc20Balance, hva, hvt, hbal]
  · rw [run_erc721 checksum env addr hvalid code hb h0 h1 h20 hsup]

/-- C6 witness: name, symbol and decimals all fail in the balance handler;
name and symbol fail in the ERC721 probe. -/
theorem c6_metadata_defaults_witness :
    getErc20Balance id
      { balanceOfR := some 42, nameR := none, symbolR := none,
        decimalsR := none }
      "0x0000000000000000000000000000000000000001"
      "0x0000000000000000000000000000000000000002" =
      Except.ok
        { name := "Unknown"
          symbol := "UNKNOWN"
          decimals := 18
          balance := 42 } ∧
    (getContractSource id
        { registry := none, bytecode := some "0x600160", balance := 5,
          nameR := none, symbolR := none, decimalsR := none,
          totalSupplyR := none, supportsR := some true }
        "0x0000000000000000000000000000000000000003").1 =
      Except.ok
        { isContract := true
          balance := 5
          bytecodeSize := 3
          classification := Classification.erc721Token "Unknown" "UNKNOWN"
          verification := none } :=
  c6_metadata_defaults id _ _ _ (by decide) (by decide) 42 rfl _ _ (by decide)
    "0x600160" rfl (by decide) (by decide) rfl rfl

/-- C7 counterexample: at a concrete input with a valid lowercase address and
absent deployed code, the request takes the EOA branch, yet the registry
fetch is invoked and is invoked first, before the bytecode read that resolves
the account kind. This refutes the claim that the verification registry
lookup happens only on the contract branch and only after kind resolution. -/
theorem c7_registry_order_counterexample :
    Call.registryFetch ∈ (getContractSource id
        { registry := none, bytecode := none, balance := 0, nameR := none,
          symbolR := none, decimalsR := none, totalSupplyR := none,
          supportsR := none }
        "0x00000000000000000000000000000000000000ff").2 ∧
    ((getContractSource id
        { registry := none, bytecode := none, balance := 0, nameR := none,
          symbolR := none, decimalsR := none, totalSupplyR := none,
          supportsR := none }
        "0x00000000000000000000000000000000000000ff").2).head? =
      some Call.registryFetch ∧
    (getContractSource id
        { registry := none, bytecode := none, balance := 0, nameR := none,
          symbolR := none, decimalsR := none, totalSupplyR := none,
          supportsR := none }
        "0x00000000000000000000000000000000000000ff").1 =
      Except.ok
        { isContract := false
          balance := 0
          bytecodeSize := 0
          classification := Classification.noClassification
          verification := none } :=
  ⟨by decide, by decide, rfl⟩

/-- C7 amended: every analysis validates first and then performs the registry
lookup unconditionally, before the bytecode read that resolves the account
kind and on both branches; for an ExternallyOwned account the analysis then
only fetches the balance and returns a report with no classification and no
verification data. -/
theorem c7_amended_sequence (checksum : String → String) (env : Env)
    (addr : String) (hvalid : isAddress checksum addr = true) :
    (∃ rest, (getContractSource checksum env addr).2 =
      Call.registryFetch :: Call.getBytecode :: Call.getBalance :: rest) ∧
    ((env.bytecode = none ∨ env.bytecode = some "0x") →
      (getContractSource checksum env addr).1 =
        Except.ok
          { isContract := false
            balance := env.balance
            bytecodeSize := 0
            classification := Classification.noClassification
            verification := none } ∧
      (getContractSource checksum env addr).2 =
        [Call.registryFetch, Call.getBytecode, Call.getBalance]) := by
  refine ⟨trace_starts_registry_then_bytecode checksum env addr hvalid, ?_⟩
  intro hcode
  rw [run_eoa checksum env addr hvalid hcode]
  exact ⟨rfl, rfl⟩

/-- C7 amended witness at a concrete EOA input. -/
theorem c7_amended_sequence_witness :
    (∃ rest, (getContractSource id
        { registry := none, bytecode := none, balance := 9, nameR := none,
          symbolR := none, decimalsR := none, totalSupplyR := none,
          supportsR := none }
        "0x00000000000000000000000000000000000000aa").2 =
      Call.registryFetch :: Call.getBytecode :: Call.getBalance :: rest) ∧
    (((Env.bytecode
        { registry := none, bytecode := none, balance := 9, nameR := none,
          symbolR := none, decimalsR := none, totalSupplyR := none,
          supportsR := none }) = none ∨
      (Env.bytecode
        { registry := none, bytecode := none, balance := 9, nameR := none,
          symbolR := none, decimalsR := none, totalSupplyR := none,
          supportsR := none }) = some "0x") →
      (getContractSource id
        { registry := none, bytecode := none, balance := 9, nameR := none,
          symbolR := none, decimalsR := none, totalSupplyR := none,
          supportsR := none }
        "0x00000000000000000000000000000000000000aa").1 =
        Except.ok
          { isContract := false
            balance := 9
            bytecodeSize := 0
            classification := Classification.noClassification
            verification := none } ∧
      (getContractSource id
        { registry := none, bytecode := none, balance := 9, nameR := none,
          symbolR := none, decimalsR := none, totalSupplyR := none,
          supportsR := none }
        "0x00000000000000000000000000000000000000aa").2 =
        [Call.registryFetch, Call.getBytecode, Call.getBalance]) :=
  c7_amended_sequence id _ _ (by decide)

/-- C8: the bytecode is read exactly once per analysis; empty or absent code
yields the ExternallyOwned report with size 0; code of length 2 + 2n (the 0x
prefix followed by 2n hex digits) yields the contract report with size n. -/
theorem c8_kind_and_size (checksum : String → String) (env : Env)
    (addr : String) (hvalid : isAddress checksum addr = true) :
    ((getContractSource checksum env addr).2).count Call.getBytecode = 1 ∧
    ((env.bytecode = none ∨ env.bytecode = some "0x") →
      (getContractSource checksum env addr).1 =
        Except.ok
          { isContract := false
            balance := env.balance
            bytecodeSize := 0
            classification := Classification.noClassification
            verification := none }) ∧
    (∀ code nBytes, env.bytecode = some code → code ≠ "0x" →
      code.length = 2 + 2 * nBytes →
      ∃ r, (getContractSource checksum env addr).1 = Except.ok r ∧
        r.isContract = true ∧ r.bytecodeSize = nBytes) := by
  refine ⟨count_getBytecode checksum env addr hvalid, ?_, ?_⟩
  · intro hcode
    rw [run_eoa checksum env addr hvalid hcode]
  · intro code nBytes hb h1 hlen
    have h0 : code ≠ "" := by
      intro hc
      subst hc
      have hz : ("" : String).length = 0 := rfl
      omega
    obtain ⟨cls, hcls⟩ :=
      run_contract_shape checksum env addr hvalid code hb h0 h1
    refine ⟨_, hcls, rfl, ?_⟩
    show (code.length - 2) / 2 = nBytes
    omega

/-- C8 witness: a contract with 3 bytes of code. -/
theorem c8_kind_and_size_witness :
    ((getContractSource id
        { registry := none, bytecode := some "0x600160", balance := 5,
          nameR := none, symbolR := none, decimalsR := none,
          totalSupplyR := none, supportsR := some true }
        "0x00000000000000000000000000000000000000bb").2).count
      Call.getBytecode = 1 ∧
    (((Env.bytecode
        { registry := none, bytecode := some "0x600160", balance := 5,
          nameR := none, symbolR := none, decimalsR := none,
          totalSupplyR := none, supportsR := some true }) = none ∨
      (Env.bytecode
        { registry := none, bytecode := some "0x600160", balance := 5,
          nameR := none, symbolR := none, decimalsR := none,
          totalSupplyR := none, supportsR := some true }) = some "0x") →
      (getContractSource id
        { registry := none, bytecode := some "0x600160", balance := 5,
          nameR := none, symbolR := none, decimalsR := none,
          totalSupplyR := none, supportsR := some true }
        "0x00000000000000000000000000000000000000bb").1 =
        Except.ok
          { isContract := false
            balance := 5
            bytecodeSize := 0
            classification := Classification.noClassification
            verification := none }) ∧
    (∀ code nBytes, (Env.bytecode
        { registry := none, bytecode := some "0x600160", balance := 5,
          nameR := none, symbolR := none, decimalsR := none,
          totalSupplyR := none, supportsR := some true }) = some code →
      code ≠ "0x" → code.length = 2 + 2 * nBytes →
      ∃ r, (getContractSource id
        { registry := none, bytecode := some "0x600160", balance := 5,
          nameR := none, symbolR := none, decimalsR := none,
          totalSupplyR := none, supportsR := some true }
        "0x00000000000000000000000000000000000000bb").1 = Except.ok r ∧
        r.isContract = true ∧ r.bytecodeSize = nBytes) :=
  c8_kind_and_size id _ _ (by decide)

/-- C10: on a contract where the fungible probe failed, the report carries
the non-fungible classification exactly when the supportsInterface call with
interface ID 0x80ac58cd succeeds and returns true, with the name and symbol
reads degrading to the placeholders rather than revoking the classification;
a failed or false supportsInterface answer yields the unknown-contract
report. -/
theorem c10_erc721_classification (checksum : String → String) (env : Env)
    (addr : String) (hvalid : isAddress checksum addr = true) (code : String)
    (hb : env.bytecode = some code) (h0 : code ≠ "") (h1 : code ≠ "0x")
    (h20 : env.nameR = none ∨ env.symbolR = none ∨ env.decimalsR = none ∨
      env.totalSupplyR = none) :
    (env.supportsR = some true →
      (getContractSource checksum env addr).1 =
        Except.ok
          { isContract := true
            balance := env.balance
            bytecodeSize := (code.length - 2) / 2
            classification := Classification.erc721Token
              ((env.nameR).getD "Unknown") ((env.symbolR).getD "UNKNOWN")
            verification := fetchSourceCodeData env.registry }) ∧
    (env.supportsR ≠ some true →
      (getContractSource checksum env addr).1 =
        Except.ok
          { isContract := true
            balance := env.balance
            bytecodeSize := (code.length - 2) / 2
            classification := Classification.unknownContract
            verification := fetchSourceCodeData env.registry }) := by
  have hp := probeERC20_eq_none env h20
  constructor
  · intro hsup
    rw [run_erc721 checksum env addr hvalid code hb h0 h1 hp hsup]
  · intro hsup
    have h : env.supportsR = none ∨ env.supportsR = some false := by
      cases hs : env.supportsR with
      | none => exact Or.inl rfl
      | some b =>
        cases b
        · exact Or.inr rfl
        · exact absurd hs hsup
    rw [run_unknown checksum env addr hvalid code hb h0 h1 hp h]

/-- C10 witness: the decimals read fails, supportsInterface answers true, and
the name and symbol reads fail. -/
theorem c10_erc721_classification_witness :
    ((Env.supportsR
        { registry := none, bytecode := some "0x600160", balance := 5,
          nameR := none, symbolR := some "NFT", decimalsR := none,
          totalSupplyR := none, supportsR := some true }) = some true →
      (getContractSource id
        { registry := none, bytecode := some "0x600160", balance := 5,
          nameR := none, symbolR := some "NFT", decimalsR := none,
          totalSupplyR := none, supportsR := some true }
        "0x00000000000000000000000000000000000000cc").1 =
        Except.ok
          { isContract := true
            balance := 5
            bytecodeSize := 3
            classification := Classification.erc721Token "Unknown" "NFT"
            verification := none }) ∧
    ((Env.supportsR
        { registry := none, bytecode := some "0x600160", balance := 5,
          nameR := none, symbolR := some "NFT", decimalsR := none,
          totalSupplyR := none, supportsR := some true }) ≠ some true →
      (getContractSource id
        { registry := none, bytecode := some "0x600160", balance := 5,
          nameR := none, symbolR := some "NFT", decimalsR := none,
          totalSupplyR := none, supportsR := some true }
        "0x00000000000000000000000000000000000000cc").1 =
        Except.ok
          { isContract := true
            balance := 5
            bytecodeSize := 3
            classification := Classification.unknownContract
            verification := none }) :=
  c10_erc721_classification id _ _ (by decide) "0x600160" rfl (by decide)
    (by decide) (Or.inl rfl)

end MonadMcp
